import Mathlib

/-!
Shallow embedding of the stunner19/Scanner backend (Python) for checking its
natural-language specification.

Embedded source files:
  * `backend/strategies/base.py`      — `BaseStrategy._fetch_and_scan`, `run_stream`
  * `backend/app.py`                  — `scan_stream.event_stream`
  * `backend/strategies/everest.py`   — `_supertrend`, `EverestStrategy.scan`
  * `backend/strategies/rsi_oversold.py` — `_rsi`, `RSIOversoldStrategy.scan`
  * `backend/strategies/breakout.py`  — `BreakoutStrategy.scan`
  * `backend/scan_store.py`           — the in-memory job store

Modelling conventions:
  * pandas/NumPy floats are modelled by `PF`: a rational number, NaN, or ±∞.
    NaN propagation and the fact that every comparison against NaN is `false`
    are modelled faithfully, because the Supertrend band computation depends
    on them (`ewm(min_periods=p)` masks its first `p-1` outputs as NaN).
  * Python `round(x, n)` (banker's rounding) is `pyRound`.
  * Where the source divides two plain Python floats that are provably nonzero
    in the claims' scope, rational division is used; theorems carry the
    corresponding positivity hypotheses.
  * Mutable Python state (the job dict and the aliased match lists inside it)
    is modelled by an explicit store with a heap of list cells, so that the
    shallow-copy behaviour of `dict(...)` in `get_job` is visible.
-/

-- Batteries marks the rational arithmetic operations irreducible, which
-- blocks `decide` on concrete witness inputs; restore their reducibility
-- for this file (proof terms are unaffected).
attribute [local semireducible] Rat.add Rat.sub Rat.mul Rat.inv Rat.ofScientific

/-- Pandas/NumPy float value: NaN, +inf, -inf or a (rational) number. -/
inductive PF where
  | nan : PF
  | pinf : PF
  | ninf : PF
  | num : ℚ → PF
deriving DecidableEq, Repr

namespace PF

/-- IEEE negation (NaN stays NaN). -/
def neg : PF → PF
  | nan => nan
  | pinf => ninf
  | ninf => pinf
  | num q => num (-q)

/-- IEEE addition restricted to the cases arising here. -/
def add : PF → PF → PF
  | nan, _ => nan
  | _, nan => nan
  | pinf, ninf => nan
  | ninf, pinf => nan
  | pinf, _ => pinf
  | _, pinf => pinf
  | ninf, _ => ninf
  | _, ninf => ninf
  | num a, num b => num (a + b)

/-- IEEE subtraction. -/
def sub (a b : PF) : PF := add a (neg b)

/-- IEEE multiplication. -/
def mul : PF → PF → PF
  | nan, _ => nan
  | _, nan => nan
  | pinf, pinf => pinf
  | pinf, ninf => ninf
  | ninf, pinf => ninf
  | ninf, ninf => pinf
  | pinf, num b => if b = 0 then nan else if 0 < b then pinf else ninf
  | num a, pinf => if a = 0 then nan else if 0 < a then pinf else ninf
  | ninf, num b => if b = 0 then nan else if 0 < b then ninf else pinf
  | num a, ninf => if a = 0 then nan else if 0 < a then ninf else pinf
  | num a, num b => num (a * b)

/-- IEEE division. -/
def div : PF → PF → PF
  | nan, _ => nan
  | _, nan => nan
  | pinf, pinf => nan
  | pinf, ninf => nan
  | ninf, pinf => nan
  | ninf, ninf => nan
  | pinf, num b => if 0 ≤ b then pinf else ninf
  | ninf, num b => if 0 ≤ b then ninf else pinf
  | num _, pinf => num 0
  | num _, ninf => num 0
  | num a, num b =>
      if b = 0 then (if a = 0 then nan else if 0 < a then pinf else ninf)
      else num (a / b)

/-- IEEE strict less-than: every comparison against NaN is false. -/
def lt : PF → PF → Bool
  | nan, _ => false
  | _, nan => false
  | ninf, ninf => false
  | ninf, _ => true
  | _, ninf => false
  | pinf, _ => false
  | num _, pinf => true
  | num a, num b => decide (a < b)

/-- Strict greater-than, as NumPy evaluates `a > b`. -/
def gt (a b : PF) : Bool := lt b a

/-- Clip below at 0 (`Series.clip(lower=0)`); NaN passes through. -/
def clipLo0 : PF → PF
  | nan => nan
  | pinf => pinf
  | ninf => num 0
  | num q => num (max q 0)

end PF

/-- Round-half-to-even to an integer, as Python `round` does on exact ties. -/
def rndHalfEven (q : ℚ) : ℤ :=
  let f : ℤ := ⌊q⌋
  let r : ℚ := q - f
  if r < 1/2 then f
  else if 1/2 < r then f + 1
  else if Even f then f else f + 1

/-- Python `round(q, d)` on a number. -/
def pyRound (q : ℚ) (d : ℕ) : ℚ :=
  (rndHalfEven (q * 10 ^ d) : ℚ) / 10 ^ d

/-- Python `round(x, d)` lifted to floats: `round(nan, d)` is NaN and
`round(±inf, d)` stays infinite. -/
def pfRound (x : PF) (d : ℕ) : PF :=
  match x with
  | PF.num q => PF.num (pyRound q d)
  | x => x

/-- One daily OHLCV bar (a row of the fetched DataFrame). -/
structure Bar where
  open_ : ℚ
  high : ℚ
  low : ℚ
  close : ℚ
  volume : ℚ
deriving DecidableEq, Repr

instance : Inhabited Bar := ⟨⟨0, 0, 0, 0, 0⟩⟩

/-- `high` column access by position (in-range in every use below). -/
def highAt (data : List Bar) (i : ℕ) : ℚ := (data.getD i default).high

/-- `low` column access by position. -/
def lowAt (data : List Bar) (i : ℕ) : ℚ := (data.getD i default).low

/-- `close` column access by position. -/
def closeAt (data : List Bar) (i : ℕ) : ℚ := (data.getD i default).close

/-- `Series.max()` of a nonempty rational list (`0` for the empty list,
which never occurs in the uses below). -/
def qmax : List ℚ → ℚ
  | [] => 0
  | x :: xs => xs.foldl max x

/-- `Series.min()` of a nonempty rational list. -/
def qmin : List ℚ → ℚ
  | [] => 0
  | x :: xs => xs.foldl min x

/-- `Series.mean()` of a rational list. -/
def qmean (l : List ℚ) : ℚ := l.sum / l.length

/-- Last element of a rational series (`iloc[-1]`). -/
def lastQ (l : List ℚ) : ℚ := l.getD (l.length - 1) 0

/-- `BaseStrategy._price_change`: percent change of the last close over the
previous close, rounded to 2 decimals.  Rational division: at a zero
previous close the source raises `ZeroDivisionError` (Python float
division) where this model returns a number, so every theorem about a
strategy that calls `_price_change` in its match branch carries the
hypothesis that the previous close is nonzero (real price data). -/
def priceChange (close : List ℚ) : ℚ :=
  let p := close.getD (close.length - 1) 0
  let pp := close.getD (close.length - 2) 0
  pyRound ((p - pp) / pp * 100) 2

/-- Match strength tag (`"Strong"` / `"Moderate"` in the source dicts). -/
inductive Strength where
  | Strong : Strength
  | Moderate : Strength
deriving DecidableEq, Repr

/-! ### Supertrend (`backend/strategies/everest.py`, `_supertrend`) -/

/-- True range per bar: `max(high-low, |high-prevClose|, |low-prevClose|)`;
at bar 0 the two `prevClose` legs are NaN and `DataFrame.max(axis=1)`
skips them, leaving `high-low`. -/
def trQ (data : List Bar) : ℕ → ℚ
  | 0 => highAt data 0 - lowAt data 0
  | i + 1 =>
      max (highAt data (i + 1) - lowAt data (i + 1))
        (max |highAt data (i + 1) - closeAt data i|
          |lowAt data (i + 1) - closeAt data i|)

/-- The `ewm(alpha=1/period, adjust=False)` recursion on the true range:
`y[0] = tr[0]`, `y[i+1] = (1-α)·y[i] + α·tr[i+1]`. -/
def atrRaw (data : List Bar) (period : ℕ) : ℕ → ℚ
  | 0 => trQ data 0
  | i + 1 =>
      (1 - 1 / (period : ℚ)) * atrRaw data period i
        + (1 / (period : ℚ)) * trQ data (i + 1)

/-- Wilder ATR as the source computes it:
`tr.ewm(alpha=1/period, min_periods=period, adjust=False).mean()`.
`min_periods=period` masks the first `period-1` outputs as NaN. -/
def atr (data : List Bar) (period : ℕ) (i : ℕ) : PF :=
  if i + 1 < period then PF.nan else PF.num (atrRaw data period i)

/-- Band midpoint `(high+low)/2`. -/
def hl2 (data : List Bar) (i : ℕ) : ℚ := (highAt data i + lowAt data i) / 2

/-- Basic upper band `hl2 + multiplier·ATR` (NaN while ATR is masked). -/
def upperBasic (data : List Bar) (period : ℕ) (m : ℚ) (i : ℕ) : PF :=
  PF.add (PF.num (hl2 data i)) (PF.mul (PF.num m) (atr data period i))

/-- Basic lower band `hl2 - multiplier·ATR`. -/
def lowerBasic (data : List Bar) (period : ℕ) (m : ℚ) (i : ℕ) : PF :=
  PF.sub (PF.num (hl2 data i)) (PF.mul (PF.num m) (atr data period i))

/-- Final upper band with the source's carry-forward rule:
`upper[i] = upper_basic[i]` if `upper_basic[i] < upper[i-1]` or
`close[i-1] > upper[i-1]`, else `upper[i-1]`. -/
def upperBand (data : List Bar) (period : ℕ) (m : ℚ) : ℕ → PF
  | 0 => upperBasic data period m 0
  | i + 1 =>
      if PF.lt (upperBasic data period m (i + 1)) (upperBand data period m i)
          || PF.gt (PF.num (closeAt data i)) (upperBand data period m i) then
        upperBasic data period m (i + 1)
      else upperBand data period m i

/-- Final lower band: `lower[i] = lower_basic[i]` if
`lower_basic[i] > lower[i-1]` or `close[i-1] < lower[i-1]`, else `lower[i-1]`. -/
def lowerBand (data : List Bar) (period : ℕ) (m : ℚ) : ℕ → PF
  | 0 => lowerBasic data period m 0
  | i + 1 =>
      if PF.gt (lowerBasic data period m (i + 1)) (lowerBand data period m i)
          || PF.lt (PF.num (closeAt data i)) (lowerBand data period m i) then
        lowerBasic data period m (i + 1)
      else lowerBand data period m i

/-- Direction sequence relative to the seed: `dirAux … 0` is the value the
source seeds at index `period` (`+1`), and `dirAux … (k+1)` is the value at
index `period + k + 1` computed by the source's stateful loop. -/
def dirAux (data : List Bar) (period : ℕ) (m : ℚ) : ℕ → ℤ
  | 0 => 1
  | k + 1 =>
      let i := period + k + 1
      let prev := dirAux data period m k
      if prev == -1 && PF.gt (PF.num (closeAt data i)) (upperBand data period m i) then 1
      else if prev == 1 && PF.lt (PF.num (closeAt data i)) (lowerBand data period m i) then -1
      else prev

/-- Supertrend direction at bar `i ≥ period` (`+1` bullish, `-1` bearish). -/
def superDir (data : List Bar) (period : ℕ) (m : ℚ) (i : ℕ) : ℤ :=
  dirAux data period m (i - period)

/-- The boolean series `direction == 1` the source returns; below the seed
index the direction entry is NaN, and `NaN == 1` is false. -/
def isGreen (data : List Bar) (period : ℕ) (m : ℚ) (i : ℕ) : Bool :=
  period ≤ i && superDir data period m i == 1

/-- Displayed Supertrend line: `lower[i]` where green, `upper[i]` otherwise. -/
def stLine (data : List Bar) (period : ℕ) (m : ℚ) (i : ℕ) : PF :=
  if isGreen data period m i then lowerBand data period m i
  else upperBand data period m i

/-! ### Everest strategy (`backend/strategies/everest.py`, `EverestStrategy.scan`) -/

/-- Result dict of `EverestStrategy.scan`.  The display-only string fields
(`signal`, `metric_label`, `metric_value`) are carried as the numbers they
render and are otherwise omitted. -/
structure EverestResult where
  ticker : String
  price : ℚ
  change_pct : ℚ
  strength : Strength
  week13_high : ℚ
  supertrend : PF
  pct_above_st : PF
  st_flipped : Bool
  pct_breakout : ℚ
deriving DecidableEq, Repr

/-- `high.iloc[-(65+1):-1].max()` — highest high of the 65 bars before
today, excluding today. -/
def priorHigh13w (data : List Bar) : ℚ :=
  qmax (((data.map Bar.high).take (data.length - 1)).drop (data.length - 66))

/-- Condition 1 of the Everest scan: `today_close > prior_high`. -/
def breakout65 (data : List Bar) : Bool :=
  decide (priorHigh13w data < closeAt data (data.length - 1))

/-- Condition 2 of the Everest scan: `is_green.iloc[-1]`. -/
def everestGreenLast (data : List Bar) : Bool :=
  isGreen data 7 3 (data.length - 1)

/-- `flipped_today = is_green.iloc[-1] and not is_green.iloc[-2]`. -/
def everestFlippedToday (data : List Bar) : Bool :=
  isGreen data 7 3 (data.length - 1) && !(isGreen data 7 3 (data.length - 2))

/-- `pct_breakout = round((today_close - prior_high)/prior_high*100, 2)`. -/
def pctBreakoutQ (data : List Bar) : ℚ :=
  pyRound ((closeAt data (data.length - 1) - priorHigh13w data)
    / priorHigh13w data * 100) 2

/-- `EverestStrategy.scan`: requires ≥ 100 bars, close above the prior
13-week (65-bar) high, and Supertrend(7,3) green at the latest bar. -/
def everestScan (symbol : String) (data : List Bar) : Option EverestResult :=
  if data.length < 100 then none
  else if !(breakout65 data) then none
  else if !(everestGreenLast data) then none
  else
    let todayClose := closeAt data (data.length - 1)
    let stVal := pfRound (stLine data 7 3 (data.length - 1)) 2
    let flipped := everestFlippedToday data
    some
      { ticker := symbol
        price := pyRound todayClose 2
        change_pct := priceChange (data.map Bar.close)
        strength :=
          if flipped || decide (1 < pctBreakoutQ data) then Strength.Strong
          else Strength.Moderate
        week13_high := pyRound (priorHigh13w data) 2
        supertrend := stVal
        pct_above_st :=
          pfRound (PF.mul (PF.div (PF.sub (PF.num todayClose) stVal) stVal)
            (PF.num 100)) 2
        st_flipped := flipped
        pct_breakout := pctBreakoutQ data }

/-! ### RSI Oversold strategy (`backend/strategies/rsi_oversold.py`) -/

/-- Clip above at 0 (`Series.clip(upper=0)`); NaN passes through. -/
def PF.clipHi0 : PF → PF
  | PF.nan => PF.nan
  | PF.pinf => PF.num 0
  | PF.ninf => PF.ninf
  | PF.num q => PF.num (min q 0)

/-- `close.diff()`: NaN at index 0, `close[i] - close[i-1]` afterwards. -/
def deltaPF (close : List ℚ) (i : ℕ) : PF :=
  if i = 0 then PF.nan else PF.num (close.getD i 0 - close.getD (i - 1) 0)

/-- Numerator recursion of `ewm(...).mean()` with `adjust=True`,
`ignore_na=False`: `Σ (1-α)^(i-j)·x[j]` over non-NaN positions `j ≤ i`. -/
def ewmNum (x : ℕ → PF) (w : ℚ) : ℕ → ℚ
  | 0 => match x 0 with | PF.num q => q | _ => 0
  | i + 1 => w * ewmNum x w i + (match x (i + 1) with | PF.num q => q | _ => 0)

/-- Weight-sum recursion of `ewm(...).mean()` with `adjust=True`. -/
def ewmDen (x : ℕ → PF) (w : ℚ) : ℕ → ℚ
  | 0 => match x 0 with | PF.num _ => 1 | _ => 0
  | i + 1 => w * ewmDen x w i + (match x (i + 1) with | PF.num _ => 1 | _ => 0)

/-- Number of non-NaN observations up to and including index `i`. -/
def ewmCount (x : ℕ → PF) : ℕ → ℕ
  | 0 => match x 0 with | PF.num _ => 1 | _ => 0
  | i + 1 => ewmCount x i + (match x (i + 1) with | PF.num _ => 1 | _ => 0)

/-- `Series.ewm(com, min_periods).mean()` with the default `adjust=True`:
NaN until `min_periods` observations are available, then the debiased
weighted mean with `w = 1-α = com/(com+1)`. -/
def ewmAdjMean (x : ℕ → PF) (w : ℚ) (minp i : ℕ) : PF :=
  if ewmCount x i < minp then PF.nan
  else PF.num (ewmNum x w i / ewmDen x w i)

/-- `_rsi` at index `i`: gains `delta.clip(lower=0)` and losses
`-delta.clip(upper=0)` smoothed by `ewm(com=period-1, min_periods=period)`,
then `100 - 100/(1 + gain/loss)` in float semantics (`loss = 0` gives
`rs = +inf` hence RSI `100`; `0/0` gives NaN). -/
def rsiAt (close : List ℚ) (period : ℕ) (i : ℕ) : PF :=
  let w : ℚ := ((period : ℚ) - 1) / (period : ℚ)
  let gain := ewmAdjMean (fun j => PF.clipLo0 (deltaPF close j)) w period i
  let loss := ewmAdjMean (fun j => PF.neg (PF.clipHi0 (deltaPF close j))) w period i
  let rs := PF.div gain loss
  PF.sub (PF.num 100) (PF.div (PF.num 100) (PF.add (PF.num 1) rs))

/-- `float(_rsi(close).iloc[-1])` with the default period 14. -/
def rsiLast (close : List ℚ) : PF := rsiAt close 14 (close.length - 1)

/-- Result dict of `RSIOversoldStrategy.scan` (display strings omitted). -/
structure RsiResult where
  ticker : String
  price : ℚ
  change_pct : ℚ
  rsi : PF
  strength : Strength
deriving DecidableEq, Repr

/-- `RSIOversoldStrategy.scan`: match iff at least 20 closes and the latest
RSI(14) value is strictly below the threshold (default 35). -/
def rsiScan (threshold : ℚ) (symbol : String) (data : List Bar) :
    Option RsiResult :=
  let close := data.map Bar.close
  if close.length < 20 then none
  else
    let rsiVal := rsiLast close
    if PF.lt rsiVal (PF.num threshold) then
      some
        { ticker := symbol
          price := pyRound (lastQ close) 2
          change_pct := priceChange close
          rsi := pfRound rsiVal 1
          strength :=
            if PF.lt rsiVal (PF.num 25) then Strength.Strong
            else Strength.Moderate }
    else none

/-! ### 52-Week Breakout strategy (`backend/strategies/breakout.py`) -/

/-- Result dict of `BreakoutStrategy.scan`; the source key `volume_ratio`
is carried as `volume_rel` (display strings omitted). -/
structure BreakoutResult where
  ticker : String
  price : ℚ
  change_pct : ℚ
  week52_high : ℚ
  week52_low : ℚ
  distance_pct : ℚ
  volume_rel : ℚ
  strength : Strength
deriving DecidableEq, Repr

/-- `w52_high = float(high.iloc[:-1].max())` — the prior high, excluding
the latest bar. -/
def w52High (data : List Bar) : ℚ := qmax (data.map Bar.high).dropLast

/-- `dist_pct = round((w52_high - price)/w52_high*100, 2)`. -/
def distPctQ (data : List Bar) : ℚ :=
  pyRound ((w52High data - lastQ (data.map Bar.close)) / w52High data * 100) 2

/-- `BreakoutStrategy.scan`: match iff at least 50 bars and the rounded
distance from the prior high is `≤ threshold_pct` (default 2.0). -/
def breakoutScan (threshold : ℚ) (symbol : String) (data : List Bar) :
    Option BreakoutResult :=
  let close := data.map Bar.close
  let volume := data.map Bar.volume
  if close.length < 50 then none
  else
    let w52 := w52High data
    let price := lastQ close
    let dist := distPctQ data
    let avgVol := qmean ((volume.take (volume.length - 1)).drop (volume.length - 21))
    let curVol := lastQ volume
    let volRel := if 0 < avgVol then pyRound (curVol / avgVol) 2 else 0
    if dist ≤ threshold then
      some
        { ticker := symbol
          price := pyRound price 2
          change_pct := priceChange close
          week52_high := pyRound w52 2
          week52_low := pyRound (qmin close) 2
          distance_pct := dist
          volume_rel := volRel
          strength := if dist < 1/2 then Strength.Strong else Strength.Moderate }
    else none

/-! ### Scanner event stream
(`backend/strategies/base.py` `run_stream` and `_fetch_and_scan`,
`backend/app.py` `scan_stream.event_stream`) -/

/-- One SSE event.  A match event carries its symbol (the source builds it
from the `(symbol, result)` pair returned by `_fetch_and_scan`; every
strategy stores that symbol as the result's `ticker`). -/
inductive ScanEvent (R : Type) where
  | progress (completed total : ℕ) (symbol : String)
  | matchEv (completed total : ℕ) (symbol : String) (result : R)
  | done (total_scanned matchCount : ℕ)
  | errorEv (message : String)
deriving DecidableEq, Repr

/-- Whether an event is a per-symbol Progress/Match event. -/
def ScanEvent.isPerSymbol {R : Type} : ScanEvent R → Bool
  | ScanEvent.progress _ _ _ => true
  | ScanEvent.matchEv _ _ _ _ => true
  | _ => false

/-- Whether an event is a terminal summary event (done or error). -/
def ScanEvent.isTerminal {R : Type} : ScanEvent R → Bool
  | ScanEvent.done _ _ => true
  | ScanEvent.errorEv _ => true
  | _ => false

/-- Symbol of a per-symbol event (`""` for terminal events). -/
def ScanEvent.symbolOf {R : Type} : ScanEvent R → String
  | ScanEvent.progress _ _ s => s
  | ScanEvent.matchEv _ _ s _ => s
  | _ => ""

/-- `completed` counter carried by a per-symbol event (0 for terminal ones). -/
def ScanEvent.completedOf {R : Type} : ScanEvent R → ℕ
  | ScanEvent.progress c _ _ => c
  | ScanEvent.matchEv c _ _ _ => c
  | _ => 0

/-- `total` carried by a per-symbol event (0 for terminal ones). -/
def ScanEvent.totalOf {R : Type} : ScanEvent R → ℕ
  | ScanEvent.progress _ t _ => t
  | ScanEvent.matchEv _ t _ _ => t
  | _ => 0

/-- Outcome of `fetch_ohlcv` as seen by `_fetch_and_scan`: a DataFrame, a
raised auth failure (`EnvironmentError`, provider rejected the token), or
any other raised exception. -/
inductive FetchOutcome where
  | ok (df : List Bar)
  | raiseAuth
  | raiseOther
deriving Repr

/-- `BaseStrategy._fetch_and_scan`: the `try`/`except Exception` catches
every exception — `EnvironmentError` (auth) included, since Python's
`EnvironmentError` is a subclass of `Exception` — and returns
`(symbol, None)`; short series are non-matches. -/
def fetchAndScan {R : Type} (fetch : String → FetchOutcome)
    (scanf : String → List Bar → Option R) (symbol : String) :
    String × Option R :=
  match fetch symbol with
  | FetchOutcome.ok df =>
      if df.isEmpty || df.length < 30 then (symbol, none)
      else (symbol, scanf symbol df)
  | FetchOutcome.raiseAuth => (symbol, none)
  | FetchOutcome.raiseOther => (symbol, none)

/-- Python `str.replace` on character lists: replaces all non-overlapping
occurrences of `pat`, scanning left to right, continuing after each
replacement.  Structural recursion on fuel (one unit per consumed input
character, so `fuel = s.length` suffices) so that it evaluates by plain
kernel reduction. -/
def replaceChars (pat rep : List Char) : ℕ → List Char → List Char
  | 0, s => s
  | _ + 1, [] => []
  | fuel + 1, c :: rest =>
      if pat.isPrefixOf (c :: rest) then
        rep ++ replaceChars pat rep fuel ((c :: rest).drop pat.length)
      else c :: replaceChars pat rep fuel rest

/-- Python `s.replace(pat, rep)` for strings. -/
def pyReplace (s pat rep : String) : String :=
  ⟨replaceChars pat.data rep.data s.data.length s.data⟩

/-- `t.replace(".NS", "").replace(".BO", "")`. -/
def cleanTicker (t : String) : String :=
  pyReplace (pyReplace t ".NS" "") ".BO" ""

/-- The symbol list `run_stream` actually scans. -/
def cleanSymbols (tickers : List String) : List String :=
  tickers.map cleanTicker

/-- The per-symbol events `run_stream` yields, processing the futures in
the given completion order; `k` is the number of already-completed symbols
(the `completed` counter is incremented on every completion). -/
def streamBody {R : Type} (fetch : String → FetchOutcome)
    (scanf : String → List Bar → Option R) (total : ℕ) :
    ℕ → List String → List (ScanEvent R)
  | _, [] => []
  | k, sym :: rest =>
      (match (fetchAndScan fetch scanf sym).2 with
        | some r => ScanEvent.matchEv (k + 1) total sym r
        | none => ScanEvent.progress (k + 1) total sym)
      :: streamBody fetch scanf total (k + 1) rest

/-- Number of match events (the `matches` list `event_stream` accumulates). -/
def countMatches {R : Type} (events : List (ScanEvent R)) : ℕ :=
  events.countP (fun e => match e with
    | ScanEvent.matchEv _ _ _ _ => true
    | _ => false)

/-- `scan_stream.event_stream`: all of `run_stream`'s events followed by
the single final `done` summary event.  `order` is the completion order of
the futures (a permutation of the cleaned symbols). -/
def scanStreamEvents {R : Type} (fetch : String → FetchOutcome)
    (scanf : String → List Bar → Option R)
    (tickers : List String) (order : List String) : List (ScanEvent R) :=
  let total := tickers.length
  let body := streamBody fetch scanf total 0 order
  body ++ [ScanEvent.done total (countMatches body)]

/-! ### Job store (`backend/scan_store.py`) -/

/-- Job status strings. -/
inductive JStatus where
  | running : JStatus
  | done : JStatus
  | error : JStatus
deriving DecidableEq, Repr

/-- One job record of the `_jobs` dict.  The mutable Python list held under
`"matches"` is represented by a reference `matchesRef` into the store's
heap, so that aliasing between the store and returned snapshots is exact. -/
structure JobRec where
  status : JStatus
  total : ℤ
  completed : ℤ
  matchesRef : ℕ
  error : Option String
  created_at : ℤ
deriving DecidableEq, Repr

/-- The module state of `scan_store.py`: the `_jobs` dict plus the heap of
allocated match lists (`μ` is the type of one match result dict). -/
structure Store (μ : Type) where
  jobs : List (String × JobRec)
  heap : List (List μ)
deriving DecidableEq, Repr

/-- `_jobs.get(job_id)` as a record lookup. -/
def lookupJob {μ : Type} (s : Store μ) (id : String) : Option JobRec :=
  (s.jobs.find? (fun p => p.1 == id)).map (fun p => p.2)

/-- Python dict assignment `_jobs[k] = v` (overwrite or append). -/
def setJob : List (String × JobRec) → String → JobRec →
    List (String × JobRec)
  | [], id, r => [(id, r)]
  | (k, v) :: rest, id, r =>
      if k == id then (id, r) :: rest else (k, v) :: setJob rest id r

/-- Update an existing job in place; no-op if the id is unknown. -/
def modifyJob {μ : Type} (s : Store μ) (id : String) (f : JobRec → JobRec) :
    Store μ :=
  match lookupJob s id with
  | none => s
  | some r => { s with jobs := setJob s.jobs id (f r) }

/-- `create_job`: fresh job with status running, zero counters, a newly
allocated empty match list, and the creation time.  The uuid is modelled as
a caller-supplied identifier. -/
def createJob {μ : Type} (s : Store μ) (id : String) (now : ℤ) : Store μ :=
  { jobs := setJob s.jobs id
      { status := JStatus.running, total := 0, completed := 0
        matchesRef := s.heap.length, error := none, created_at := now }
    heap := s.heap ++ [[]] }

/-- `update_progress`: unconditional overwrite of both counters for an
existing job; no-op if the id is unknown. -/
def updateProgress {μ : Type} (s : Store μ) (id : String) (completed total : ℤ) :
    Store μ :=
  modifyJob s id (fun r => { r with completed := completed, total := total })

/-- `add_match`: appends to the job's live match list (mutates the heap
cell; the `_jobs` entry itself is unchanged); no-op if the id is unknown. -/
def addMatch {μ : Type} (s : Store μ) (id : String) (m : μ) : Store μ :=
  match lookupJob s id with
  | none => s
  | some r =>
      { s with heap := s.heap.set r.matchesRef ((s.heap.getD r.matchesRef []) ++ [m]) }

/-- `finish_job`: sets status to done for an existing job (no terminal-state
check in the source); no-op if the id is unknown. -/
def finishJob {μ : Type} (s : Store μ) (id : String) : Store μ :=
  modifyJob s id (fun r => { r with status := JStatus.done })

/-- `fail_job`: sets status to error and records the message for an existing
job (no terminal-state check in the source); no-op if the id is unknown. -/
def failJob {μ : Type} (s : Store μ) (id : String) (message : String) : Store μ :=
  modifyJob s id (fun r => { r with status := JStatus.error, error := some message })

/-- A Python value at the top level of the snapshot dict `get_job` returns:
a string, an int, `None`, or a reference to a (mutable) list object. -/
inductive PyVal where
  | pstr (s : String)
  | pint (n : ℤ)
  | plistRef (r : ℕ)
  | pnone
deriving DecidableEq, Repr

/-- Status strings as stored in the job dicts. -/
def statusStr : JStatus → String
  | JStatus.running => "running"
  | JStatus.done => "done"
  | JStatus.error => "error"

/-- `get_job`: `dict(_jobs.get(job_id, {}))` — a shallow copy.  The scalar
entries are copied values; the `"matches"` entry copies the *reference* to
the job's live list.  For an unknown id the result is the empty dict. -/
def getJob {μ : Type} (s : Store μ) (id : String) : List (String × PyVal) :=
  match lookupJob s id with
  | none => []
  | some r =>
      [("status", PyVal.pstr (statusStr r.status)),
       ("total", PyVal.pint r.total),
       ("completed", PyVal.pint r.completed),
       ("matches", PyVal.plistRef r.matchesRef),
       ("error", match r.error with
         | some m => PyVal.pstr m
         | none => PyVal.pnone),
       ("created_at", PyVal.pint r.created_at)]

/-- Lookup of a key in a snapshot dict. -/
def snapField (snap : List (String × PyVal)) (key : String) : Option PyVal :=
  (snap.find? (fun p => p.1 == key)).map (fun p => p.2)

/-- The match list a reader observes through a snapshot, dereferenced
against the store's current heap (this is what `job["matches"]` denotes
for a snapshot held while the store keeps mutating). -/
def snapMatches {μ : Type} (s : Store μ) (snap : List (String × PyVal)) :
    List μ :=
  match snapField snap "matches" with
  | some (PyVal.plistRef r) => s.heap.getD r []
  | _ => []

/-! ### Concrete fixtures used by the witness theorems -/

/-- A bar whose open/high/low/close (and volume) all equal `q`. -/
def mkFlatBar (q : ℚ) : Bar := ⟨q, q, q, q, q⟩

/-- Ten strictly rising flat bars (a monotonically rising series). -/
def risingBars : List Bar :=
  [mkFlatBar 1, mkFlatBar 2, mkFlatBar 3, mkFlatBar 4, mkFlatBar 5,
   mkFlatBar 6, mkFlatBar 7, mkFlatBar 8, mkFlatBar 9, mkFlatBar 10]

/-- 100 bars: 99 flat bars at 10, then a breakout close at 20. -/
def everestWitnessBars : List Bar :=
  List.replicate 99 (mkFlatBar 10) ++ [⟨20, 20, 10, 20, 10⟩]

/-- 20 strictly falling closes (RSI 0 at the last bar). -/
def rsiWitnessBars : List Bar :=
  [mkFlatBar 100, mkFlatBar 99, mkFlatBar 98, mkFlatBar 97, mkFlatBar 96,
   mkFlatBar 95, mkFlatBar 94, mkFlatBar 93, mkFlatBar 92, mkFlatBar 91,
   mkFlatBar 90, mkFlatBar 89, mkFlatBar 88, mkFlatBar 87, mkFlatBar 86,
   mkFlatBar 85, mkFlatBar 84, mkFlatBar 83, mkFlatBar 82, mkFlatBar 81]

/-- 50 bars: 49 flat bars at 10, then a close at 20 — strictly above the
prior high. -/
def breakoutWitnessBars : List Bar :=
  List.replicate 49 (mkFlatBar 10) ++ [mkFlatBar 20]

/-- The empty job store with result type `ℕ` (match payloads are opaque to
the store). -/
def emptyStoreN : Store ℕ := ⟨[], []⟩

/-- A fresh store holding exactly the one running job `"j"`. -/
def storeJ : Store ℕ := createJob emptyStoreN "j" 0


/-! ## Theorems -/

/-! ### Shared lemmas -/

theorem PF.lt_nan (a : PF) : PF.lt a PF.nan = false := by cases a <;> rfl

theorem PF.nan_lt (a : PF) : PF.lt PF.nan a = false := by cases a <;> rfl

theorem atr_zero_eq_nan (data : List Bar) {P : ℕ} (hP : 2 ≤ P) :
    atr data P 0 = PF.nan := by
  rw [atr, if_pos (by omega)]

theorem upperBasic_zero_nan (data : List Bar) {P : ℕ} (m : ℚ) (hP : 2 ≤ P) :
    upperBasic data P m 0 = PF.nan := by
  rw [upperBasic, atr_zero_eq_nan data hP]; rfl

theorem lowerBasic_zero_nan (data : List Bar) {P : ℕ} (m : ℚ) (hP : 2 ≤ P) :
    lowerBasic data P m 0 = PF.nan := by
  rw [lowerBasic, atr_zero_eq_nan data hP]; rfl

/-- With a NaN seed the upper-band ratchet never recovers: both guard
comparisons against the carried NaN are false, so NaN carries forward. -/
theorem upperBand_eq_nan (data : List Bar) (P : ℕ) (m : ℚ)
    (h0 : upperBasic data P m 0 = PF.nan) :
    ∀ i, upperBand data P m i = PF.nan := by
  intro i
  induction i with
  | zero => simpa [upperBand] using h0
  | succ n ih => simp [upperBand, ih, PF.lt_nan, PF.gt, PF.nan_lt]

/-- Same for the lower band. -/
theorem lowerBand_eq_nan (data : List Bar) (P : ℕ) (m : ℚ)
    (h0 : lowerBasic data P m 0 = PF.nan) :
    ∀ i, lowerBand data P m i = PF.nan := by
  intro i
  induction i with
  | zero => simpa [lowerBand] using h0
  | succ n ih => simp [lowerBand, ih, PF.lt_nan, PF.gt, PF.nan_lt]

/-- With an all-NaN lower band the direction never leaves its bullish seed:
the bearish-flip guard `close < lower` is a comparison against NaN. -/
theorem dirAux_eq_one (data : List Bar) (P : ℕ) (m : ℚ)
    (hlow : ∀ i, lowerBand data P m i = PF.nan) :
    ∀ k, dirAux data P m k = 1 := by
  intro k
  induction k with
  | zero => rfl
  | succ n ih => simp [dirAux, ih, hlow, PF.lt_nan]

/-! ### C2 -/

/-- C2: in the Supertrend computation with ATR period `P` the direction is
seeded bullish (+1) at index `P`; for every later bar it flips bullish when
previously bearish and the close exceeds the final upper band, flips bearish
when previously bullish and the close is below the final lower band, and
otherwise holds — exactly the source's stateful loop, so the direction is a
deterministic function of the OHLC input — and for a monotonically rising
series it is bullish from bar `P+1` onward and never flips.  (The proof of
the last part does not even need the rising hypothesis: with
`min_periods = P ≥ 2` the final bands are NaN-masked and NaN-comparisons
are false, so the hold branch is taken at every bar.) -/
theorem spec_c2_supertrend_direction (data : List Bar) (P : ℕ) (m : ℚ)
    (hP : 2 ≤ P) (_hlen : P < data.length) :
    superDir data P m P = 1
    ∧ (∀ i, P < i →
        superDir data P m i =
          if superDir data P m (i - 1) == -1
              && PF.gt (PF.num (closeAt data i)) (upperBand data P m i) then 1
          else if superDir data P m (i - 1) == 1
              && PF.lt (PF.num (closeAt data i)) (lowerBand data P m i) then -1
          else superDir data P m (i - 1))
    ∧ ((∀ i < data.length - 1, closeAt data i < closeAt data (i + 1)) →
        ∀ i, P + 1 ≤ i → i < data.length → superDir data P m i = 1) := by
  refine ⟨?_, ?_, ?_⟩
  · show dirAux data P m (P - P) = 1
    rw [Nat.sub_self]; rfl
  · intro i hi
    obtain ⟨k, rfl⟩ : ∃ k, i = P + (k + 1) := ⟨i - P - 1, by omega⟩
    have h1 : P + (k + 1) - P = k + 1 := by omega
    have h2 : P + (k + 1) - 1 - P = k := by omega
    rw [superDir, superDir, h1, h2, dirAux]
    simp only [Nat.add_assoc]
  · intro _ i hi1 hi2
    have hlow := lowerBand_eq_nan data P m (lowerBasic_zero_nan data m hP)
    simp [superDir, dirAux_eq_one data P m hlow]

/-- Witness for C2: the theorem applied to a concrete strictly rising
10-bar series with period 7 and multiplier 3. -/
theorem spec_c2_supertrend_direction_witness :
    (2 ≤ 7 ∧ 7 < risingBars.length)
    ∧ (superDir risingBars 7 3 7 = 1
      ∧ (∀ i, 7 < i →
          superDir risingBars 7 3 i =
            if superDir risingBars 7 3 (i - 1) == -1
                && PF.gt (PF.num (closeAt risingBars i)) (upperBand risingBars 7 3 i) then 1
            else if superDir risingBars 7 3 (i - 1) == 1
                && PF.lt (PF.num (closeAt risingBars i)) (lowerBand risingBars 7 3 i) then -1
            else superDir risingBars 7 3 (i - 1))
      ∧ ((∀ i < risingBars.length - 1, closeAt risingBars i < closeAt risingBars (i + 1)) →
          ∀ i, 7 + 1 ≤ i → i < risingBars.length → superDir risingBars 7 3 i = 1)) :=
  ⟨⟨by decide, by decide⟩,
    spec_c2_supertrend_direction risingBars 7 3 (by decide) (by decide)⟩

/-! ### C3 -/

/-- C3: for a series of at least 100 bars — with positive prior high and
nonzero previous close, i.e. real price data; at a nonpositive prior high
or a zero `close[-2]` the source raises `ZeroDivisionError` while building
the result dict (`pct_breakout` resp. `_price_change`) instead of
returning — the Everest strategy returns a match exactly when today's
close exceeds the highest high of the prior 65 bars (excluding today) and
Supertrend(7,3) is green at the latest bar; a returned match is Strong
exactly when the direction flipped green at the latest bar or the rounded
breakout margin exceeds 1.0%, and Moderate otherwise; under 100 bars it
returns none. -/
theorem spec_c3_everest_match (symbol : String) (data : List Bar) :
    (data.length < 100 → everestScan symbol data = none)
    ∧ (100 ≤ data.length → 0 < priorHigh13w data →
        closeAt data (data.length - 2) ≠ 0 →
        ((everestScan symbol data).isSome
            = (breakout65 data && everestGreenLast data))
        ∧ (∀ r, everestScan symbol data = some r →
            (r.strength = Strength.Strong ↔
              (everestFlippedToday data = true ∨ 1 < pctBreakoutQ data)))) := by
  constructor
  · intro h
    simp [everestScan, h]
  · intro h100 _ _
    have hnl : ¬ data.length < 100 := by omega
    constructor
    · by_cases hb : breakout65 data
      · by_cases hg : everestGreenLast data
        · simp [everestScan, hnl, hb, hg]
        · simp [everestScan, hnl, hb, hg]
      · simp [everestScan, hnl, hb]
    · intro r hr
      by_cases hb : breakout65 data
      · by_cases hg : everestGreenLast data
        · simp [everestScan, hnl, hb, hg] at hr
          subst hr
          by_cases hf : everestFlippedToday data
          · simp [hf]
          · by_cases hq : 1 < pctBreakoutQ data
            · simp [hf, hq]
            · simp [hf, hq]
        · simp [everestScan, hnl, hb, hg] at hr
      · simp [everestScan, hnl, hb] at hr

set_option maxRecDepth 8000 in
/-- Witness for C3: the theorem applied to a concrete 100-bar series that
breaks out above its prior 65-bar high. -/
theorem spec_c3_everest_match_witness :
    (100 ≤ everestWitnessBars.length ∧ 0 < priorHigh13w everestWitnessBars
      ∧ closeAt everestWitnessBars (everestWitnessBars.length - 2) ≠ 0)
    ∧ (((everestScan "X" everestWitnessBars).isSome
          = (breakout65 everestWitnessBars && everestGreenLast everestWitnessBars))
      ∧ (∀ r, everestScan "X" everestWitnessBars = some r →
          (r.strength = Strength.Strong ↔
            (everestFlippedToday everestWitnessBars = true
              ∨ 1 < pctBreakoutQ everestWitnessBars)))) :=
  ⟨⟨by decide, by decide, by decide⟩,
    (spec_c3_everest_match "X" everestWitnessBars).2 (by decide) (by decide)
      (by decide)⟩

/-! ### C8 -/

/-- C8: for every series with at least 20 closes — and nonzero previous
close, since at `close[-2] = 0` the source's match branch raises
`ZeroDivisionError` in `_price_change` instead of returning — the RSI
Oversold strategy returns a match exactly when the latest 14-period RSI
value (the source's `_rsi`, i.e. the float the threshold is compared
against) is strictly below the threshold (default 35); every returned
result satisfies that bound, and its strength is Strong exactly when that
RSI value is below 25. -/
theorem spec_c8_rsi_match_iff (threshold : ℚ) (symbol : String)
    (data : List Bar) (h20 : 20 ≤ data.length)
    (_hprev : closeAt data (data.length - 2) ≠ 0) :
    ((rsiScan threshold symbol data).isSome
        = PF.lt (rsiLast (data.map Bar.close)) (PF.num threshold))
    ∧ (∀ r, rsiScan threshold symbol data = some r →
        PF.lt (rsiLast (data.map Bar.close)) (PF.num threshold) = true
        ∧ (r.strength = Strength.Strong
            ↔ PF.lt (rsiLast (data.map Bar.close)) (PF.num 25) = true)) := by
  have hnl : ¬ data.length < 20 := by omega
  constructor
  · by_cases hlt : PF.lt (rsiLast (data.map Bar.close)) (PF.num threshold) = true
    · simp [rsiScan, hnl, hlt]
    · simp [rsiScan, hnl, hlt]
  · intro r hr
    by_cases hlt : PF.lt (rsiLast (data.map Bar.close)) (PF.num threshold) = true
    · simp [rsiScan, hnl, hlt] at hr
      subst hr
      refine ⟨hlt, ?_⟩
      by_cases hs : PF.lt (rsiLast (data.map Bar.close)) (PF.num 25) = true
      · simp [hs]
      · simp [hs]
    · simp [rsiScan, hnl, hlt] at hr

set_option maxRecDepth 8000 in
/-- Witness for C8: the theorem applied to 20 strictly falling closes
(latest RSI value 0) with the default threshold 35. -/
theorem spec_c8_rsi_match_iff_witness :
    (20 ≤ rsiWitnessBars.length
      ∧ closeAt rsiWitnessBars (rsiWitnessBars.length - 2) ≠ 0)
    ∧ (((rsiScan 35 "A" rsiWitnessBars).isSome
          = PF.lt (rsiLast (rsiWitnessBars.map Bar.close)) (PF.num 35))
      ∧ (∀ r, rsiScan 35 "A" rsiWitnessBars = some r →
          PF.lt (rsiLast (rsiWitnessBars.map Bar.close)) (PF.num 35) = true
          ∧ (r.strength = Strength.Strong
              ↔ PF.lt (rsiLast (rsiWitnessBars.map Bar.close)) (PF.num 25) = true))) :=
  ⟨⟨by decide, by decide⟩,
    spec_c8_rsi_match_iff 35 "A" rsiWitnessBars (by decide) (by decide)⟩

/-! ### C10 -/

theorem rndHalfEven_le_ceil (q : ℚ) : rndHalfEven q ≤ ⌈q⌉ := by
  simp only [rndHalfEven]
  split_ifs with h1 h2 h3
  · exact Int.floor_le_ceil q
  · exact Int.add_one_le_iff.mpr (Int.lt_ceil.mpr (by push_neg at h1; linarith))
  · exact Int.floor_le_ceil q
  · exact Int.add_one_le_iff.mpr (Int.lt_ceil.mpr (by push_neg at h1; linarith))

theorem pyRound_nonpos {q : ℚ} (h : q ≤ 0) (d : ℕ) : pyRound q d ≤ 0 := by
  unfold pyRound
  apply div_nonpos_of_nonpos_of_nonneg
  · have h1 : rndHalfEven (q * 10 ^ d) ≤ ⌈q * 10 ^ d⌉ := rndHalfEven_le_ceil _
    have h2 : ⌈q * 10 ^ d⌉ ≤ 0 := by
      rw [show (0 : ℤ) = ⌈(0 : ℚ)⌉ by simp]
      exact Int.ceil_le_ceil (mul_nonpos_of_nonpos_of_nonneg h (by positivity))
    exact_mod_cast le_trans h1 h2
  · positivity

/-- C10: for every series with at least 50 bars whose latest close is
strictly above the (positive) prior high — and with nonzero previous
close, since at `close[-2] = 0` the source's match branch raises
`ZeroDivisionError` in `_price_change` instead of returning — the 52-Week
Breakout strategy returns a match: the raw distance-from-high is negative,
its rounding is nonpositive, hence at most any nonnegative
`threshold_pct` — the "within 2% of the 52-week high" band is one-sided
and imposes no upper bound on how far above the prior high the price may
be. -/
theorem spec_c10_breakout_above_high (threshold : ℚ) (symbol : String)
    (data : List Bar) (hθ : 0 ≤ threshold) (hlen : 50 ≤ data.length)
    (hw : 0 < w52High data)
    (habove : w52High data < lastQ (data.map Bar.close))
    (_hprev : closeAt data (data.length - 2) ≠ 0) :
    (breakoutScan threshold symbol data).isSome = true
    ∧ (w52High data - lastQ (data.map Bar.close)) / w52High data * 100 < 0
    ∧ distPctQ data ≤ 0
    ∧ distPctQ data ≤ threshold := by
  have hraw :
      (w52High data - lastQ (data.map Bar.close)) / w52High data * 100 < 0 := by
    apply mul_neg_of_neg_of_pos
    · exact div_neg_of_neg_of_pos (by linarith) hw
    · norm_num
  have hdist : distPctQ data ≤ 0 := pyRound_nonpos (le_of_lt hraw) 2
  have hth : distPctQ data ≤ threshold := le_trans hdist hθ
  refine ⟨?_, hraw, hdist, hth⟩
  have hnl : ¬ data.length < 50 := by omega
  simp [breakoutScan, hnl, hth]

set_option maxRecDepth 8000 in
/-- Witness for C10: the theorem applied to 50 bars whose last close (20)
is strictly above the prior high (10), with the default threshold 2. -/
theorem spec_c10_breakout_above_high_witness :
    (0 ≤ (2 : ℚ) ∧ 50 ≤ breakoutWitnessBars.length
      ∧ 0 < w52High breakoutWitnessBars
      ∧ w52High breakoutWitnessBars < lastQ (breakoutWitnessBars.map Bar.close)
      ∧ closeAt breakoutWitnessBars (breakoutWitnessBars.length - 2) ≠ 0)
    ∧ ((breakoutScan 2 "B" breakoutWitnessBars).isSome = true
      ∧ (w52High breakoutWitnessBars - lastQ (breakoutWitnessBars.map Bar.close))
          / w52High breakoutWitnessBars * 100 < 0
      ∧ distPctQ breakoutWitnessBars ≤ 0
      ∧ distPctQ breakoutWitnessBars ≤ 2) :=
  ⟨⟨by decide, by decide, by decide, by decide, by decide⟩,
    spec_c10_breakout_above_high 2 "B" breakoutWitnessBars
      (by decide) (by decide) (by decide) (by decide) (by decide)⟩

/-! ### Scanner stream lemmas -/

theorem streamBody_length {R : Type} (fetch : String → FetchOutcome)
    (scanf : String → List Bar → Option R) (total : ℕ) :
    ∀ (l : List String) (k : ℕ),
      (streamBody fetch scanf total k l).length = l.length := by
  intro l
  induction l with
  | nil => intro k; rfl
  | cons s rest ih => intro k; simp [streamBody, ih]

theorem streamBody_map_symbolOf {R : Type} (fetch : String → FetchOutcome)
    (scanf : String → List Bar → Option R) (total : ℕ) :
    ∀ (l : List String) (k : ℕ),
      (streamBody fetch scanf total k l).map ScanEvent.symbolOf = l := by
  intro l
  induction l with
  | nil => intro k; rfl
  | cons s rest ih =>
      intro k
      cases hfs : (fetchAndScan fetch scanf s).2 <;>
        simp [streamBody, hfs, ScanEvent.symbolOf, ih]

theorem streamBody_perSymbol {R : Type} (fetch : String → FetchOutcome)
    (scanf : String → List Bar → Option R) (total : ℕ) :
    ∀ (l : List String) (k : ℕ) (e : ScanEvent R),
      e ∈ streamBody fetch scanf total k l → e.isPerSymbol = true := by
  intro l
  induction l with
  | nil => intro k e he; simp [streamBody] at he
  | cons s rest ih =>
      intro k e he
      rw [streamBody] at he
      rcases List.mem_cons.mp he with h | h
      · subst h
        cases hfs : (fetchAndScan fetch scanf s).2 <;>
          simp [hfs, ScanEvent.isPerSymbol]
      · exact ih (k + 1) e h

theorem streamBody_counters {R : Type} (fetch : String → FetchOutcome)
    (scanf : String → List Bar → Option R) (total : ℕ) :
    ∀ (l : List String) (k : ℕ) (i : ℕ)
      (h : i < (streamBody fetch scanf total k l).length),
      ((streamBody fetch scanf total k l).get ⟨i, h⟩).completedOf = k + i + 1
      ∧ ((streamBody fetch scanf total k l).get ⟨i, h⟩).totalOf = total := by
  intro l
  induction l with
  | nil => intro k i h; simp [streamBody] at h
  | cons s rest ih =>
      intro k i h
      cases i with
      | zero =>
          cases hfs : (fetchAndScan fetch scanf s).2 <;>
            simp [streamBody, hfs, ScanEvent.completedOf, ScanEvent.totalOf]
      | succ n =>
          have hn : n < (streamBody fetch scanf total (k + 1) rest).length := by
            have h2 := h
            simp only [streamBody, List.length_cons] at h2
            omega
          have hrec := ih (k + 1) n hn
          simp only [streamBody, List.get_cons_succ]
          exact ⟨hrec.1.trans (by omega), hrec.2⟩

/-! ### C4 -/

/-- C4: for any completion order of the cleaned symbols, one scan's event
sequence is exactly the per-symbol Progress/Match events followed by the
single terminal `done` summary; there are exactly `len(tickers)` per-symbol
events, exactly one per symbol. -/
theorem spec_c4_event_stream_shape (R : Type) (fetch : String → FetchOutcome)
    (scanf : String → List Bar → Option R) (tickers order : List String)
    (hperm : order.Perm (cleanSymbols tickers)) :
    scanStreamEvents fetch scanf tickers order
      = streamBody fetch scanf tickers.length 0 order
        ++ [ScanEvent.done tickers.length
            (countMatches (streamBody fetch scanf tickers.length 0 order))]
    ∧ (streamBody fetch scanf tickers.length 0 order).length = tickers.length
    ∧ (∀ e ∈ streamBody fetch scanf tickers.length 0 order, e.isPerSymbol = true)
    ∧ ((streamBody fetch scanf tickers.length 0 order).map ScanEvent.symbolOf).Perm
        (cleanSymbols tickers) := by
  refine ⟨rfl, ?_, ?_, ?_⟩
  · rw [streamBody_length]
    calc order.length = (cleanSymbols tickers).length := hperm.length_eq
    _ = tickers.length := by simp [cleanSymbols]
  · intro e he
    exact streamBody_perSymbol fetch scanf tickers.length order 0 e he
  · rw [streamBody_map_symbolOf]
    exact hperm

/-- Witness for C4: a concrete two-ticker scan whose futures complete in
the reverse order. -/
theorem spec_c4_event_stream_shape_witness :
    (["INFY", "TCS"] : List String).Perm (cleanSymbols ["TCS.NS", "INFY.BO"])
    ∧ (scanStreamEvents (R := Unit) (fun _ => FetchOutcome.raiseOther)
          (fun _ _ => none) ["TCS.NS", "INFY.BO"] ["INFY", "TCS"]
        = streamBody (R := Unit) (fun _ => FetchOutcome.raiseOther)
            (fun _ _ => none) 2 0 ["INFY", "TCS"]
          ++ [ScanEvent.done 2
              (countMatches (streamBody (R := Unit)
                (fun _ => FetchOutcome.raiseOther) (fun _ _ => none) 2 0
                ["INFY", "TCS"]))]
      ∧ (streamBody (R := Unit) (fun _ => FetchOutcome.raiseOther)
            (fun _ _ => none) 2 0 ["INFY", "TCS"]).length = 2
      ∧ (∀ e ∈ streamBody (R := Unit) (fun _ => FetchOutcome.raiseOther)
            (fun _ _ => none) 2 0 ["INFY", "TCS"], e.isPerSymbol = true)
      ∧ ((streamBody (R := Unit) (fun _ => FetchOutcome.raiseOther)
            (fun _ _ => none) 2 0 ["INFY", "TCS"]).map ScanEvent.symbolOf).Perm
          (cleanSymbols ["TCS.NS", "INFY.BO"])) :=
  ⟨by decide,
    spec_c4_event_stream_shape Unit (fun _ => FetchOutcome.raiseOther)
      (fun _ _ => none) ["TCS.NS", "INFY.BO"] ["INFY", "TCS"] (by decide)⟩

/-! ### C1 -/

/-- C1: the claim (and spec §4.1/§7) says an authentication failure is NOT
isolated — it should surface as a fatal Error event and stop the scan.  The
code disagrees: `_fetch_and_scan`'s blanket `except Exception` also catches
the auth `EnvironmentError` (a subclass of `Exception`), so a scan in which
the provider rejects the stored token for every symbol still emits one
Progress event per symbol and the final `done` summary — no Error event, no
early stop.  This theorem evaluates the embedded scanner at that failing
input.  (`fetch_ohlcv` deliberately re-raises `EnvironmentError` and
`app.py` keeps an `except EnvironmentError → 401` handler that this blanket
catch makes unreachable, so the spec matches the evident intent and the
blanket catch is the slip: a code bug, not a spec error.) -/
theorem spec_c1_auth_error_swallowed :
    scanStreamEvents (R := Unit) (fun _ => FetchOutcome.raiseAuth)
        (fun _ _ => none) ["AAA", "BBB"] ["AAA", "BBB"]
      = [ScanEvent.progress 1 2 "AAA", ScanEvent.progress 2 2 "BBB",
         ScanEvent.done 2 0] := by decide

/-! ### Job store lemmas -/

theorem getD_set_self {α : Type} (l : List α) (i : ℕ) (a d : α)
    (h : i < l.length) : (l.set i a).getD i d = a := by
  induction l generalizing i with
  | nil => simp at h
  | cons x xs ih =>
      cases i with
      | zero => rfl
      | succ n =>
          simp only [List.set_cons_succ, List.getD_cons_succ]
          exact ih n (by simpa using h)

theorem find?_setJob (jobs : List (String × JobRec)) (id : String)
    (r : JobRec) :
    ((setJob jobs id r).find? (fun p => p.1 == id)).map (fun p => p.2)
      = some r := by
  induction jobs with
  | nil => simp [setJob, List.find?]
  | cons kv rest ih =>
      obtain ⟨k, v⟩ := kv
      by_cases h : k == id
      · simp [setJob, h, List.find?]
      · simp only [setJob, h, Bool.false_eq_true, if_false, List.find?]
        exact ih

theorem lookupJob_modifyJob {μ : Type} (s : Store μ) (id : String)
    (f : JobRec → JobRec) (r : JobRec) (h : lookupJob s id = some r) :
    lookupJob (modifyJob s id f) id = some (f r) := by
  unfold modifyJob
  rw [h]
  exact find?_setJob s.jobs id (f r)

/-! ### C5 -/

/-- C5 counterexample: the claim says a value returned by `get` is never
altered by a subsequent store mutation, naming `add_match` in particular.
But `get_job` returns `dict(...)` — a *shallow* copy whose `"matches"`
entry is the same list object the store keeps appending to: after an
`add_match`, the matches observed through the previously returned snapshot
have changed. -/
theorem spec_c5_snapshot_counterexample :
    snapMatches (addMatch storeJ "j" 7) (getJob storeJ "j")
      ≠ snapMatches storeJ (getJob storeJ "j") := by decide

/-- C5 amended: `get` returns a shallow copy — the scalar entries are
values copied at `get` time, but the `"matches"` entry is a reference to
the job's live list, so a subsequent `add_match` on the same job is visible
through the earlier snapshot (its observed match list gains the appended
element). -/
theorem spec_c5_shallow_copy_amended (μ : Type) (s : Store μ) (id : String)
    (r : JobRec) (m : μ) (h : lookupJob s id = some r)
    (hr : r.matchesRef < s.heap.length) :
    snapMatches (addMatch s id m) (getJob s id)
      = snapMatches s (getJob s id) ++ [m] := by
  have hget : getJob s id
      = [("status", PyVal.pstr (statusStr r.status)),
         ("total", PyVal.pint r.total),
         ("completed", PyVal.pint r.completed),
         ("matches", PyVal.plistRef r.matchesRef),
         ("error", match r.error with
           | some e => PyVal.pstr e
           | none => PyVal.pnone),
         ("created_at", PyVal.pint r.created_at)] := by
    simp only [getJob, h]
  have hfind : snapField (getJob s id) "matches"
      = some (PyVal.plistRef r.matchesRef) := by
    rw [hget]; rfl
  simp only [snapMatches, hfind]
  simp only [addMatch, h]
  exact getD_set_self s.heap r.matchesRef _ [] hr

/-- Witness for the amended C5 at a concrete one-job store. -/
theorem spec_c5_shallow_copy_amended_witness :
    snapMatches (addMatch storeJ "j" 7) (getJob storeJ "j")
      = snapMatches storeJ (getJob storeJ "j") ++ [7] :=
  spec_c5_shallow_copy_amended ℕ storeJ "j"
    { status := JStatus.running, total := 0, completed := 0, matchesRef := 0,
      error := none, created_at := 0 } 7 (by decide) (by decide)

/-! ### C6 -/

/-- C6 counterexample: the claim says `finish`/`fail` are no-ops on a job
whose status is already terminal, so no operation sequence ever changes a
terminal status.  But the source checks only that the id exists: after
`finish_job` (status done, terminal), a `fail_job` still overwrites the
status to error. -/
theorem spec_c6_terminal_overwrite_counterexample :
    (lookupJob (finishJob storeJ "j") "j").map JobRec.status
        = some JStatus.done
    ∧ (lookupJob (failJob (finishJob storeJ "j") "j" "boom") "j").map
        JobRec.status = some JStatus.error
    ∧ JStatus.error ≠ JStatus.done := by decide

/-- C6 amended: `finish` and `fail` are no-ops when the id is unknown; for
any existing job they overwrite the status unconditionally — `finish` sets
done and `fail` sets error and records the message — regardless of the
current status, so a terminal status can be overwritten (done → error by a
later `fail`, error → done by a later `finish`). -/
theorem spec_c6_status_overwrite_amended (μ : Type) (s : Store μ)
    (id message : String) :
    (lookupJob s id = none →
      finishJob s id = s ∧ failJob s id message = s)
    ∧ (∀ r, lookupJob s id = some r →
        lookupJob (finishJob s id) id = some { r with status := JStatus.done }
        ∧ lookupJob (failJob s id message) id
            = some { r with status := JStatus.error, error := some message }) := by
  constructor
  · intro h
    exact ⟨by simp [finishJob, modifyJob, h], by simp [failJob, modifyJob, h]⟩
  · intro r h
    exact ⟨lookupJob_modifyJob s id _ r h, lookupJob_modifyJob s id _ r h⟩

/-- Witness for the amended C6 at a concrete one-job store. -/
theorem spec_c6_status_overwrite_amended_witness :
    lookupJob (finishJob storeJ "j") "j"
      = some { status := JStatus.done, total := 0, completed := 0,
               matchesRef := 0, error := none, created_at := 0 }
    ∧ lookupJob (failJob storeJ "j" "oops") "j"
      = some { status := JStatus.error, total := 0, completed := 0,
               matchesRef := 0, error := some "oops", created_at := 0 } :=
  (spec_c6_status_overwrite_amended ℕ storeJ "j" "oops").2
    { status := JStatus.running, total := 0, completed := 0, matchesRef := 0,
      error := none, created_at := 0 } (by decide)

/-! ### C7 -/

/-- C7 counterexample: the claim says a job's completed counter never
exceeds its total across any sequence of store operations.  But
`update_progress` overwrites both counters with whatever the caller
supplies: after `update_progress(id, 5, 3)` the job has completed 5 > total
3 (and a later smaller value would likewise decrease it). -/
theorem spec_c7_counters_counterexample :
    (lookupJob (updateProgress storeJ "j" 5 3) "j").map
        (fun r => (r.completed, r.total)) = some ((5 : ℤ), (3 : ℤ))
    ∧ ¬ ((5 : ℤ) ≤ 3) := by decide

/-- C7 amended: the store itself enforces nothing — `update_progress` is an
unconditional overwrite of both counters for an existing job — so the
invariant holds only for call sequences that supply it.  The scanner's do:
the i-th of the per-symbol events of one scan carries
`completed = i + 1 ≤ total = len(symbols)`, so a job driven by translating
a scan's events in order has a non-decreasing completed counter that never
exceeds its total. -/
theorem spec_c7_progress_overwrite_amended (μ R : Type) (s : Store μ)
    (id : String) (c t : ℤ) (fetch : String → FetchOutcome)
    (scanf : String → List Bar → Option R) (order : List String) :
    (∀ r, lookupJob s id = some r →
        lookupJob (updateProgress s id c t) id
          = some { r with completed := c, total := t })
    ∧ (∀ i (h : i < (streamBody fetch scanf order.length 0 order).length),
        ((streamBody fetch scanf order.length 0 order).get ⟨i, h⟩).completedOf
            = i + 1
        ∧ ((streamBody fetch scanf order.length 0 order).get ⟨i, h⟩).totalOf
            = order.length
        ∧ ((streamBody fetch scanf order.length 0 order).get ⟨i, h⟩).completedOf
            ≤ order.length) := by
  constructor
  · intro r h
    exact lookupJob_modifyJob s id _ r h
  · intro i h
    obtain ⟨h1, h2⟩ := streamBody_counters fetch scanf order.length order 0 i h
    have hlen : (streamBody fetch scanf order.length 0 order).length
        = order.length := streamBody_length fetch scanf order.length order 0
    refine ⟨h1.trans (by omega), h2, ?_⟩
    rw [h1]
    omega

/-- Witness for the amended C7: overwrite semantics at a concrete store,
plus the counter values of a concrete one-symbol stream. -/
theorem spec_c7_progress_overwrite_amended_witness :
    lookupJob (updateProgress storeJ "j" 1 2) "j"
      = some { status := JStatus.running, total := 2, completed := 1,
               matchesRef := 0, error := none, created_at := 0 } :=
  (spec_c7_progress_overwrite_amended ℕ Unit storeJ "j" 1 2
      (fun _ => FetchOutcome.raiseAuth) (fun _ _ => none) ["A"]).1
    { status := JStatus.running, total := 0, completed := 0, matchesRef := 0,
      error := none, created_at := 0 } (by decide)

/-! ### C9 -/

/-- C9: for an id not present in the store, `get_job` evaluates
`dict(_jobs.get(job_id, {}))` and returns the empty dict — an ordinary
value with no fields; being a total function of the store it never raises,
and its codomain has no distinguished absent/None marker. -/
theorem spec_c9_get_job_unknown_empty (μ : Type) (s : Store μ) (id : String)
    (h : lookupJob s id = none) : getJob s id = [] := by
  simp [getJob, h]

/-- Witness for C9: an unknown id against the empty store. -/
theorem spec_c9_get_job_unknown_empty_witness :
    getJob emptyStoreN "missing" = [] :=
  spec_c9_get_job_unknown_empty ℕ emptyStoreN "missing" (by decide)
